import Mathlib

/-!
Verification of the hassmic connection core: the wire-message decoder
(`HassMic.recv_message`), the `Message`/`MessageType` data model, the
audio-chunk queue (`PipelineManager.enqueue_chunk`), the read-loop
bad-message accounting (`ConnectionManager.run.do_net_loop`), the ping
watchdog (`ConnectionManager.ping_watchdog`) and the validation handshake
(`HassMic.async_validate_connection_params`), shallowly embedded in Lean.

Modelling conventions:
- JSON values are the inductive `JVal`; Python dicts produced by the JSON
  codec are association lists with distinct keys, looked up by first match.
- The stdlib JSON codec is an external collaborator: a wire line is
  modelled by its UTF-8 + JSON decode result (`Option JVal`, `none` for
  undecodable bytes), since that result is all the source inspects.
- Python exceptions raised by the decoding path are the `RecvErr` type;
  `badMessage` is the BadMessageException the code classifies, the other
  constructors are stdlib exceptions that would escape that classification.
- Timestamps are naturals; `asyncio` timeouts are modelled as explicit
  inputs saying whether the awaited bytes arrived in time.
-/

/-- A JSON value, as produced by the Python json module (numbers restricted
to integers, which is all the protocol uses). -/
inductive JVal where
  | null : JVal
  | bool (b : Bool) : JVal
  | num (n : Int) : JVal
  | str (s : String) : JVal
  | arr (elems : List JVal) : JVal
  | obj (fields : List (String × JVal)) : JVal

/-- Python dict key lookup (keys of a decoded JSON object are distinct, so
first match is the match). -/
def getKey : List (String × JVal) → String → Option JVal
  | [], _ => none
  | (k, v) :: rest, key => if k = key then some v else getKey rest key

/-- Setting one key in a Python dict: replace the entry in place if the key
exists, otherwise append it. -/
def setKey : List (String × JVal) → String → JVal → List (String × JVal)
  | [], key, v => [(key, v)]
  | (k, w) :: rest, key, v =>
      if k = key then (key, v) :: rest else (k, w) :: setKey rest key v

/-- Python dict update `a |= b`: iterate the entries of `b` in order and set
each one in `a`; keys from `b` win. -/
def dictMerge (a b : List (String × JVal)) : List (String × JVal) :=
  b.foldl (fun acc kv => setKey acc kv.1 kv.2) a

/-- The `MessageType` enum from hassmic.py (member values: UNKNOWN is None,
the rest are the wire strings). -/
inductive MessageType where
  | UNKNOWN : MessageType
  | AUDIO_CHUNK : MessageType
  | CLIENT_INFO : MessageType
  | PING : MessageType
deriving DecidableEq, Repr

/-- Python exceptions that can arise on the decode path. `badMessage` is
the BadMessageException from exceptions.py; the others are stdlib
exceptions, named for the Python exception class they model. -/
inductive RecvErr where
  | badMessage : RecvErr
  | valueError : RecvErr
  | typeError : RecvErr
  | attributeError : RecvErr
deriving DecidableEq, Repr

/-- Whether a JSON value is hashable as a Python object: lists and dicts
are unhashable, every scalar is hashable. -/
def JVal.isHashable : JVal → Bool
  | .arr _ => false
  | .obj _ => false
  | _ => true

/-- The value-to-member association of `MessageType`: Python equality of a
candidate value against the member values None, "audio-chunk",
"client-info", "ping". -/
def value2member : JVal → Option MessageType
  | .null => some .UNKNOWN
  | .str s =>
      if s = "audio-chunk" then some .AUDIO_CHUNK
      else if s = "client-info" then some .CLIENT_INFO
      else if s = "ping" then some .PING
      else none
  | _ => none

/-- CPython `Enum.__call__` on `MessageType`: hashable values are looked up
in `_value2member_map_` (a dict keyed by member value; a miss is a KeyError
that falls through to `_missing_` and becomes ValueError). An unhashable
value raises TypeError from that dict lookup, which `Enum.__new__` catches
itself and replaces with a linear search `member._value_ == value`; no
member value (None or a string) equals a list or dict, so the search fails
and `_missing_` again yields ValueError. TypeError therefore never escapes
the lookup. -/
def enumLookup (v : JVal) : Except RecvErr MessageType :=
  if v.isHashable then
    match value2member v with
    | some m => .ok m
    | none => .error .valueError
  else
    match value2member v with
    | some m => .ok m
    | none => .error .valueError

/-- `Message.__init__`: `message_type` starts as UNKNOWN, and the enum
lookup of the `message_type` kwarg is attempted under
`contextlib.suppress(ValueError)`, so a ValueError leaves UNKNOWN in place
while any other exception propagates. -/
def messageTypeInit (v : JVal) : Except RecvErr MessageType :=
  match enumLookup v with
  | .ok t => .ok t
  | .error .valueError => .ok .UNKNOWN
  | .error e => .error e

/-- Total description of what `Message.__init__` stores for a given
`message_type` kwarg (the lookup result, UNKNOWN on any miss). -/
def messageTypeOf (v : JVal) : MessageType :=
  match v with
  | .null => .UNKNOWN
  | .str s =>
      if s = "audio-chunk" then .AUDIO_CHUNK
      else if s = "client-info" then .CLIENT_INFO
      else if s = "ping" then .PING
      else .UNKNOWN
  | _ => .UNKNOWN

/-- A decoded protocol message: `Message` from hassmic.py. `data` is
whatever JSON value the header carried (an object in well-formed traffic),
`payload` the raw payload bytes. -/
structure Message where
  message_type : MessageType
  data : JVal
  payload : List Nat

/-- One result of `reader.readline()`: a zero-length read (closed stream),
a bare terminator line, or a non-blank line identified by its UTF-8 + JSON
decode result (`none` when either decoding step fails, the branch that the
source turns into a BadMessageException). -/
inductive LineRead where
  | eof : LineRead
  | blank : LineRead
  | text (parsed : Option JVal) : LineRead

/-- One result of `reader.readexactly(n)` under `asyncio.timeout`: either
the requested bytes arrived in time, carried with their UTF-8 + JSON decode
result (used when the block is the extra-data extension) and their raw
byte values (used when it is the payload extension), or the timeout fired
first. -/
inductive BlockRead where
  | got (parsed : Option JVal) (raw : List Nat) : BlockRead
  | timeout : BlockRead

/-- Membership of the string "type" in a list of JSON values, as Python
`==` sees it (only the string "type" itself matches). -/
def isTypeStr : JVal → Bool
  | .str s => s = "type"
  | _ => false

/-- Whether `needle` occurs as a prefix of `hay` (character lists). -/
def charsLeadWith : List Char → List Char → Bool
  | [], _ => true
  | _ :: _, [] => false
  | a :: as, b :: bs => a == b && charsLeadWith as bs

/-- Whether `needle` occurs contiguously inside `hay` (character lists). -/
def charsContain (needle : List Char) : List Char → Bool
  | [] => needle.isEmpty
  | c :: rest => charsLeadWith needle (c :: rest) || charsContain needle rest

/-- Python `"type" in msg` when the decoded header is not a dict: list
membership for a list, substring containment for a string, and a TypeError
for the non-container scalars (int, bool, None). -/
def pyTypeMember : JVal → Except RecvErr Bool
  | .arr xs => .ok (xs.any isTypeStr)
  | .str s => .ok (charsContain "type".toList s.toList)
  | _ => .error .typeError

/-- Python `msg.get(key, -1) > 0` for the two extension-length fields: an
absent key defaults to -1 which is not positive; an int compares normally;
a bool compares as 0 or 1; comparing any other JSON value with an int
raises TypeError. -/
def pyPositiveLength : Option JVal → Except RecvErr Bool
  | none => .ok false
  | some (.num n) => .ok (decide (0 < n))
  | some (.bool b) => .ok b
  | some _ => .error .typeError

/-- Reading the extra-data extension block: `reader.readexactly(data_length)`
under the half-second timeout, followed by the UTF-8 + JSON decode of the
bytes and the right-biased merge `msg["data"] |= d`. An exhausted model
stream delivers no bytes, so the timeout fires; a timeout or a decode
failure is raised as BadMessageException. A merge whose operands are not
both dicts raises TypeError (dict update also accepts an iterable of
key-value pairs, a shape the wire protocol never produces; it is modelled
as the TypeError case like every other non-dict operand). -/
def readExtraData (data0 : JVal) : List BlockRead → Except RecvErr (JVal × List BlockRead)
  | [] => .error .badMessage
  | .timeout :: _ => .error .badMessage
  | .got none _ :: _ => .error .badMessage
  | .got (some d) _ :: rest =>
      match data0, d with
      | .obj a, .obj b => .ok (.obj (dictMerge a b), rest)
      | _, _ => .error .typeError

/-- Reading the payload extension block: `reader.readexactly(payload_length)`
under the half-second timeout; the raw bytes are kept, a timeout is raised
as BadMessageException. -/
def readPayload : List BlockRead → Except RecvErr (List Nat × List BlockRead)
  | [] => .error .badMessage
  | .timeout :: _ => .error .badMessage
  | .got _ raw :: rest => .ok (raw, rest)

/-- The defaulting of the `data` field in `recv_message`: when
`msg.get("data") is None` (the key is absent, or present with a null
value), `msg["data"]` is set to an empty dict. -/
def headerDataDefault (fs : List (String × JVal)) : JVal :=
  match getKey fs "data" with
  | none => .obj []
  | some .null => .obj []
  | some d => d

/-- The body of `recv_message` once the header line has decoded to the JSON
value `j`: require the `type` field, default an absent or null `data` to an
empty dict, read the optional length-prefixed extensions in order, and
construct the `Message`. A non-dict header goes through Python
`"type" in msg` containment (TypeError for scalars, BadMessageException
when containment fails) and then fails on `msg.get` with AttributeError. -/
def decodeHeader (j : JVal) (blocks : List BlockRead) : Except RecvErr (Option Message) := do
  match j with
  | .obj fs =>
      match getKey fs "type" with
      | none => .error .badMessage
      | some t =>
          let data0 : JVal := headerDataDefault fs
          let dlPositive ← pyPositiveLength (getKey fs "data_length")
          let (data1, blocks1) ←
            if dlPositive then readExtraData data0 blocks else .ok (data0, blocks)
          let plPositive ← pyPositiveLength (getKey fs "payload_length")
          let (payload_bytes, _) ←
            if plPositive then readPayload blocks1 else .ok ([], blocks1)
          let mt ← messageTypeInit t
          .ok (some { message_type := mt, data := data1, payload := payload_bytes })
  | other =>
      match pyTypeMember other with
      | .error e => .error e
      | .ok false => .error .badMessage
      | .ok true => .error .attributeError

/-- `HassMic.recv_message`: read one line, skipping bare terminator lines;
a zero-length read returns the end-of-stream sentinel (`none`); an
exhausted model stream reads as closed; an undecodable line raises
BadMessageException; otherwise decode the header and its extensions. -/
def recv_message : List LineRead → List BlockRead → Except RecvErr (Option Message)
  | [], _ => .ok none
  | .blank :: rest, blocks => recv_message rest blocks
  | .eof :: _, _ => .ok none
  | .text none :: _, _ => .error .badMessage
  | .text (some j) :: _, blocks => decodeHeader j blocks

/-- `ConnectionManager.send`: writes `json.dumps(data) + "\n"` to the
socket. The stdlib JSON codec is an external collaborator whose decoder
inverts its encoder on JSON-representable mappings, so the single line this
produces is modelled by its decode result: the mapping itself. -/
def send (data : List (String × JVal)) : LineRead :=
  LineRead.text (some (JVal.obj data))

/-- Maximum number of chunks in the queue before dumping
(pipeline_manager.py). -/
def QUEUE_MAX_CHUNKS : Nat := 2048

/-- An audio chunk: the raw payload bytes handed to
`PipelineManager.enqueue_chunk`. -/
abbrev Chunk := List Nat

/-- The asyncio queue error raised by the non-blocking accessors:
QueueFull from `put_nowait`, QueueEmpty from `get_nowait`. -/
inductive QueueErr where
  | full : QueueErr
  | empty : QueueErr
deriving DecidableEq

/-- `asyncio.Queue.put_nowait` on a queue of maxsize QUEUE_MAX_CHUNKS:
appends when the queue is below capacity, raises QueueFull otherwise. -/
def put_nowait (q : List Chunk) (c : Chunk) : Except QueueErr (List Chunk) :=
  if q.length < QUEUE_MAX_CHUNKS then .ok (q ++ [c]) else .error .full

/-- The dump loop in `enqueue_chunk`: `get_nowait` in a loop until it
raises QueueEmpty, which breaks the loop; every queued chunk is removed. -/
def dumpQueue : List Chunk → List Chunk
  | [] => []
  | _ :: rest => dumpQueue rest

/-- `PipelineManager.enqueue_chunk`: try `put_nowait`; on QueueFull, log
and dump the whole queue. Only QueueFull is caught, and `put_nowait`
raises nothing else, so the error channel of the result is provably
unused: the operation never raises to its caller. -/
def enqueue_chunk (q : List Chunk) (c : Chunk) : Except QueueErr (List Chunk) :=
  match put_nowait q c with
  | .ok r => .ok r
  | .error .full => .ok (dumpQueue q)
  | .error e => .error e

/-- How many bad messages in a row cause a drop and reconnect
(connection_manager.py). -/
def MAX_CONSECUTIVE_BAD_MESSAGES : Nat := 5

/-- The state touched by one iteration of `do_net_loop` inside
`ConnectionManager.run`: the two loop locals (`bad_messages`, `is_eof`),
the connection flag and the watchdog timestamp of the manager, the
should-close flag, and an instrumentation counter of how many forced
`reconnect()` calls the loop has made. -/
structure NetLoopState where
  badMessages : Nat
  isEof : Bool
  isConnected : Bool
  lastMessageTime : Nat
  shouldClose : Bool
  reconnects : Nat

/-- The loop state on entry to `do_net_loop`: the locals start at
`is_eof = False` and `bad_messages = 0`; the connection flag was just set
by `reconnect()` and the timestamp is whatever the manager last stored. -/
def initialNetLoopState (connected : Bool) (t0 : Nat) : NetLoopState :=
  { badMessages := 0, isEof := false, isConnected := connected,
    lastMessageTime := t0, shouldClose := false, reconnects := 0 }

/-- What one `await self._recv_fn(...)` call in the read loop came to:
a decoded message, the end-of-stream sentinel `None`, a raised
BadMessageException, or any other exception (which the loop body does not
catch). -/
inductive RecvOutcome where
  | msg (m : Message) : RecvOutcome
  | eofNone : RecvOutcome
  | badMessage : RecvOutcome
  | otherExc : RecvOutcome

/-- One iteration of the body of `do_net_loop` at wall-clock time `now`,
given whether a forced `reconnect()` would succeed (`reconnectOk`, the
state `reconnect` leaves in the connection flag). A returned message or
sentinel refreshes the timestamp and then resets `bad_messages`; the
sentinel additionally marks EOF and flips the connection flag first. A
BadMessageException skips the timestamp update (`continue`), increments
`bad_messages`, and at the threshold calls `reconnect()` and resets the
counter. `otherExc` propagates out of the loop and is handled in
`runNetLoop`. -/
def netLoopStep (now : Nat) (reconnectOk : Bool) (s : NetLoopState) :
    RecvOutcome → NetLoopState
  | .msg _ => { s with lastMessageTime := now, badMessages := 0 }
  | .eofNone =>
      { s with isEof := true, isConnected := false, lastMessageTime := now,
               badMessages := 0 }
  | .badMessage =>
      if s.badMessages + 1 ≥ MAX_CONSECUTIVE_BAD_MESSAGES then
        { s with badMessages := 0, isConnected := reconnectOk,
                 reconnects := s.reconnects + 1 }
      else { s with badMessages := s.badMessages + 1 }
  | .otherExc => s

/-- The `while self._is_connected and not is_eof and not self._should_close`
loop of `do_net_loop`, run over a list of recv outcomes at a fixed
wall-clock time; an uncaught exception leaves the loop at once. -/
def runNetLoop (now : Nat) (reconnectOk : Bool) :
    NetLoopState → List RecvOutcome → NetLoopState
  | s, [] => s
  | s, o :: rest =>
      if s.isConnected && !s.isEof && !s.shouldClose then
        match o with
        | .otherExc => s
        | o => runNetLoop now reconnectOk (netLoopStep now reconnectOk s o) rest
      else s

/-- The literal overall timeout, in seconds, of `asyncio.timeout(2)` in
`HassMic.async_validate_connection_params`. -/
def VALIDATE_TIMEOUT_SECS : Nat := 2

/-- What the single awaited `recv_message` inside the validation handshake
came to: completed with its result, or pre-empted by the 2 s timeout. -/
inductive HandshakeRead where
  | completed (r : Except RecvErr (Option Message)) : HandshakeRead
  | timedOut : HandshakeRead

/-- The outcome `async_validate_connection_params` surfaces to its caller:
the uuid on success, or one of the exception classes it lets escape. -/
inductive HandshakeOutcome where
  | ok (uuid : JVal) : HandshakeOutcome
  | badClientInfo : HandshakeOutcome
  | recvFailed (e : RecvErr) : HandshakeOutcome
  | timeoutFailed : HandshakeOutcome
  | attrFailed : HandshakeOutcome

/-- `HassMic.async_validate_connection_params` after the connection opened:
read one message under the 2 s timeout; return the uuid when the message
is a client-info whose data dict carries a non-None `uuid`; raise
BadHassMicClientInfoException otherwise. A TimeoutError or an exception
from `recv_message` propagates; a `None` sentinel makes `m.message_type`
raise AttributeError, as does `m.data.get` on a non-dict `data`. The
second component records that the `finally` block closed the writer, which
happens on every path. -/
def async_validate_connection_params (r : HandshakeRead) :
    HandshakeOutcome × Bool :=
  (match r with
   | .timedOut => .timeoutFailed
   | .completed (.error e) => .recvFailed e
   | .completed (.ok none) => .attrFailed
   | .completed (.ok (some m)) =>
       if m.message_type = MessageType.CLIENT_INFO then
         match m.data with
         | .obj fs =>
             match getKey fs "uuid" with
             | some .null => .badClientInfo
             | some u => .ok u
             | none => .badClientInfo
         | _ => .attrFailed
       else .badClientInfo
   , true)

theorem messageTypeInit_eq_ok (v : JVal) : messageTypeInit v = .ok (messageTypeOf v) := by
  cases v with
  | str s =>
      simp only [messageTypeInit, enumLookup, value2member, JVal.isHashable, messageTypeOf]
      by_cases h1 : s = "audio-chunk" <;> by_cases h2 : s = "client-info" <;>
        by_cases h3 : s = "ping" <;> simp [h1, h2, h3]
  | _ => rfl

theorem dumpQueue_eq_nil (q : List Chunk) : dumpQueue q = [] := by
  induction q with
  | nil => rfl
  | cons c rest ih => simpa [dumpQueue] using ih

theorem getKey_setKey_self (l : List (String × JVal)) (k : String) (v : JVal) :
    getKey (setKey l k v) k = some v := by
  induction l with
  | nil => simp [setKey, getKey]
  | cons p rest ih =>
      obtain ⟨k0, v0⟩ := p
      by_cases h : k0 = k
      · simp [setKey, h, getKey]
      · simp [setKey, h, getKey, ih]

theorem getKey_setKey_ne (l : List (String × JVal)) (k k2 : String) (v : JVal)
    (h : k ≠ k2) : getKey (setKey l k v) k2 = getKey l k2 := by
  induction l with
  | nil => simp [setKey, getKey, h]
  | cons p rest ih =>
      obtain ⟨k0, v0⟩ := p
      by_cases hk : k0 = k
      · subst hk
        simp [setKey, getKey, h]
      · simp [setKey, hk, getKey, ih]

theorem getKey_eq_none_forall (l : List (String × JVal)) (k : String)
    (h : getKey l k = none) : ∀ p ∈ l, p.1 ≠ k := by
  induction l with
  | nil => simp
  | cons p rest ih =>
      obtain ⟨k0, v0⟩ := p
      by_cases hk : k0 = k
      · simp [getKey, hk] at h
      · simp only [getKey, hk, if_false] at h
        intro q hq
        rcases List.mem_cons.mp hq with hq | hq
        · simpa [hq] using hk
        · exact ih h q hq

theorem foldl_setKey_absent (b : List (String × JVal)) (a : List (String × JVal))
    (k : String) (h : ∀ p ∈ b, p.1 ≠ k) :
    getKey (b.foldl (fun acc kv => setKey acc kv.1 kv.2) a) k = getKey a k := by
  induction b generalizing a with
  | nil => rfl
  | cons p rest ih =>
      simp only [List.foldl_cons]
      rw [ih _ (fun q hq => h q (List.mem_cons_of_mem _ hq))]
      exact getKey_setKey_ne _ _ _ _ (h p (List.mem_cons_self _ _))

theorem dictMerge_absent (a b : List (String × JVal)) (k : String)
    (h : getKey b k = none) : getKey (dictMerge a b) k = getKey a k :=
  foldl_setKey_absent b a k (getKey_eq_none_forall b k h)

theorem dictMerge_present (a b : List (String × JVal)) (k : String) (v : JVal)
    (hnd : (b.map Prod.fst).Nodup) (h : getKey b k = some v) :
    getKey (dictMerge a b) k = some v := by
  induction b generalizing a with
  | nil => simp [getKey] at h
  | cons p rest ih =>
      obtain ⟨k0, v0⟩ := p
      simp only [List.map_cons, List.nodup_cons] at hnd
      by_cases hk : k0 = k
      · subst hk
        simp only [getKey, if_pos, eq_self_iff_true, if_true, Option.some.injEq] at h
        subst h
        have habs : ∀ q ∈ rest, q.1 ≠ k0 := by
          intro q hq hqk
          exact hnd.1 (List.mem_map.mpr ⟨q, hq, hqk⟩)
        show getKey (rest.foldl (fun acc kv => setKey acc kv.1 kv.2) (setKey a k0 v0)) k0 = some v0
        rw [foldl_setKey_absent rest _ k0 habs]
        exact getKey_setKey_self a k0 v0
      · simp only [getKey, hk, if_false] at h
        show getKey (dictMerge (setKey a k0 v0) rest) k = some v
        exact ih (setKey a k0 v0) hnd.2 h

theorem decode_simple_header (fs : List (String × JVal)) (t : JVal)
    (blocks : List BlockRead)
    (h1 : getKey fs "type" = some t)
    (h2 : pyPositiveLength (getKey fs "data_length") = .ok false)
    (h3 : pyPositiveLength (getKey fs "payload_length") = .ok false) :
    recv_message [LineRead.text (some (JVal.obj fs))] blocks =
      .ok (some { message_type := messageTypeOf t, data := headerDataDefault fs,
                  payload := [] }) := by
  simp [recv_message, decodeHeader, h1, h2, h3, messageTypeInit_eq_ok, bind, Except.bind]

theorem decode_extra_header (fs : List (String × JVal)) (t : JVal)
    (a b : List (String × JVal)) (raw : List Nat) (rest : List BlockRead)
    (h1 : getKey fs "type" = some t)
    (h2 : getKey fs "data" = some (JVal.obj a))
    (h3 : pyPositiveLength (getKey fs "data_length") = .ok true)
    (h4 : pyPositiveLength (getKey fs "payload_length") = .ok false) :
    recv_message [LineRead.text (some (JVal.obj fs))]
        (BlockRead.got (some (JVal.obj b)) raw :: rest) =
      .ok (some { message_type := messageTypeOf t, data := .obj (dictMerge a b),
                  payload := [] }) := by
  simp [recv_message, decodeHeader, headerDataDefault, h1, h2, h3, h4,
        readExtraData, messageTypeInit_eq_ok, bind, Except.bind]

/-- Claim C1: enqueuing a chunk while the audio queue already holds
QUEUE_MAX_CHUNKS (2048) chunks discards every currently queued chunk,
leaving the queue empty with the new chunk dropped too; after any enqueue
the queue holds at most QUEUE_MAX_CHUNKS chunks, and the enqueue operation
never raises an error to its caller (its error channel is provably never
used). -/
theorem c1_audio_queue_overflow (q : List Chunk) (c : Chunk)
    (hfull : q.length = QUEUE_MAX_CHUNKS) :
    QUEUE_MAX_CHUNKS = 2048
    ∧ enqueue_chunk q c = .ok []
    ∧ (∀ q2 c2, ∃ r, enqueue_chunk q2 c2 = .ok r ∧ r.length ≤ QUEUE_MAX_CHUNKS) := by
  refine ⟨rfl, ?_, ?_⟩
  · simp [enqueue_chunk, put_nowait, hfull, dumpQueue_eq_nil]
  · intro q2 c2
    by_cases h : q2.length < QUEUE_MAX_CHUNKS
    · refine ⟨q2 ++ [c2], by simp [enqueue_chunk, put_nowait, h], ?_⟩
      simp only [List.length_append, List.length_cons, List.length_nil]
      omega
    · exact ⟨[], by simp [enqueue_chunk, put_nowait, h, dumpQueue_eq_nil], by simp⟩

theorem c1_audio_queue_overflow_witness :
    (List.replicate QUEUE_MAX_CHUNKS ([] : Chunk)).length = QUEUE_MAX_CHUNKS
    ∧ enqueue_chunk (List.replicate QUEUE_MAX_CHUNKS ([] : Chunk)) [3] = .ok [] :=
  ⟨by simp, (c1_audio_queue_overflow (List.replicate QUEUE_MAX_CHUNKS []) [3] (by simp)).2.1⟩

/-- Claim C2 (counterexample): decoding the encoding of the mapping
M = ("type" mapped to "ping") yields a Message whose data is the empty
mapping, not M itself, so decode of encode does not reconstruct a Message
whose data equals M. -/
theorem c2_roundtrip_counterexample :
    recv_message [send [("type", JVal.str "ping")]] [] =
      .ok (some { message_type := .PING, data := .obj [], payload := [] })
    ∧ JVal.obj [] ≠ JVal.obj [("type", JVal.str "ping")] :=
  ⟨rfl, by simp⟩

/-- Claim C2 (amended): for every mapping M that carries a "type" key and
no positive data_length or payload_length, decoding the single line
produced by encoding M reconstructs a Message whose data equals the "data"
entry of M (the empty mapping when that entry is absent or null), with the
kind mapped from the "type" entry and an empty payload. -/
theorem c2_roundtrip_amended (M : List (String × JVal)) (t : JVal)
    (h1 : getKey M "type" = some t)
    (h2 : pyPositiveLength (getKey M "data_length") = .ok false)
    (h3 : pyPositiveLength (getKey M "payload_length") = .ok false) :
    recv_message [send M] [] =
      .ok (some { message_type := messageTypeOf t, data := headerDataDefault M,
                  payload := [] }) :=
  decode_simple_header M t [] h1 h2 h3

theorem c2_roundtrip_amended_witness :
    getKey [("type", JVal.str "ping"), ("data", JVal.obj [("a", JVal.num 1)])] "type"
        = some (JVal.str "ping")
    ∧ recv_message
        [send [("type", JVal.str "ping"), ("data", JVal.obj [("a", JVal.num 1)])]] [] =
        .ok (some { message_type := .PING, data := .obj [("a", JVal.num 1)],
                    payload := [] }) :=
  ⟨rfl, c2_roundtrip_amended
    [("type", JVal.str "ping"), ("data", JVal.obj [("a", JVal.num 1)])]
    (JVal.str "ping") rfl rfl rfl⟩

/-- Claim C3: in the read loop, each BadMessage decode increments the
consecutive-bad-message counter and each valid decode resets it to zero;
five consecutive malformed lines trigger exactly one forced reconnect,
after which the counter is reset, while four trigger none; the threshold
constant is 5, and a malformed line raises BadMessage out of the
decoder. -/
theorem c3_bad_message_threshold (now t0 : Nat) (rok : Bool) (s : NetLoopState)
    (m : Message) :
    MAX_CONSECUTIVE_BAD_MESSAGES = 5
    ∧ runNetLoop now rok (initialNetLoopState true t0)
        (List.replicate 5 .badMessage) =
        { badMessages := 0, isEof := false, isConnected := rok,
          lastMessageTime := t0, shouldClose := false, reconnects := 1 }
    ∧ (runNetLoop now rok (initialNetLoopState true t0)
        (List.replicate 4 .badMessage)).reconnects = 0
    ∧ (s.badMessages + 1 < MAX_CONSECUTIVE_BAD_MESSAGES →
        (netLoopStep now rok s .badMessage).badMessages = s.badMessages + 1)
    ∧ (netLoopStep now rok s (.msg m)).badMessages = 0
    ∧ recv_message [LineRead.text none] [] = .error .badMessage := by
  refine ⟨rfl, rfl, rfl, ?_, rfl, rfl⟩
  intro h
  have hlt : ¬ (s.badMessages + 1 ≥ MAX_CONSECUTIVE_BAD_MESSAGES) := by omega
  simp [netLoopStep, hlt]

theorem c3_bad_message_threshold_witness :
    2 + 1 < MAX_CONSECUTIVE_BAD_MESSAGES
    ∧ (netLoopStep 11 true
        { badMessages := 2, isEof := false, isConnected := true,
          lastMessageTime := 4, shouldClose := false, reconnects := 0 }
        .badMessage).badMessages = 2 + 1 :=
  ⟨by decide,
   (c3_bad_message_threshold 11 4 true
      { badMessages := 2, isEof := false, isConnected := true,
        lastMessageTime := 4, shouldClose := false, reconnects := 0 }
      { message_type := .PING, data := .obj [], payload := [] }).2.2.2.1 (by decide)⟩

/-- Claim C5: the validation handshake reads one message under an overall
2 s timeout, succeeds with the uuid exactly when that message is a
client-info whose data carries a non-null uuid entry, surfaces every other
outcome as a failure, and closes the connection regardless of outcome. -/
theorem c5_validation_handshake (r : HandshakeRead) (u : JVal) :
    VALIDATE_TIMEOUT_SECS = 2
    ∧ (async_validate_connection_params r).2 = true
    ∧ ((async_validate_connection_params r).1 = .ok u ↔
        ∃ m fs, r = .completed (.ok (some m))
          ∧ m.message_type = .CLIENT_INFO
          ∧ m.data = .obj fs
          ∧ getKey fs "uuid" = some u
          ∧ u ≠ .null) := by
  refine ⟨rfl, rfl, ?_⟩
  constructor
  · intro h
    match r with
    | .timedOut => simp [async_validate_connection_params] at h
    | .completed (.error e) => simp [async_validate_connection_params] at h
    | .completed (.ok none) => simp [async_validate_connection_params] at h
    | .completed (.ok (some m)) =>
        by_cases ht : m.message_type = MessageType.CLIENT_INFO
        · cases hd : m.data with
          | obj fs =>
              cases hu : getKey fs "uuid" with
              | none => simp [async_validate_connection_params, ht, hd, hu] at h
              | some v =>
                  cases v with
                  | null => simp [async_validate_connection_params, ht, hd, hu] at h
                  | _ =>
                      simp only [async_validate_connection_params, ht, if_true, hd, hu] at h
                      obtain rfl := (HandshakeOutcome.ok.inj h).symm
                      exact ⟨m, fs, rfl, ht, hd, hu, by simp⟩
          | _ => simp [async_validate_connection_params, ht, hd] at h
        · simp [async_validate_connection_params, ht] at h
  · rintro ⟨m, fs, rfl, ht, hd, hu, hnull⟩
    cases u with
    | null => exact absurd rfl hnull
    | _ => simp [async_validate_connection_params, ht, hd, hu]

theorem c5_validation_handshake_witness :
    (async_validate_connection_params (.completed (.ok (some
        { message_type := .CLIENT_INFO, data := .obj [("uuid", JVal.str "u1")],
          payload := [] })))).1 = .ok (JVal.str "u1")
    ∧ (async_validate_connection_params .timedOut).2 = true :=
  ⟨((c5_validation_handshake (.completed (.ok (some
      { message_type := .CLIENT_INFO, data := .obj [("uuid", JVal.str "u1")],
        payload := [] }))) (JVal.str "u1")).2.2).mpr
      ⟨_, _, rfl, rfl, rfl, rfl, by simp⟩,
   (c5_validation_handshake .timedOut (JVal.str "u1")).2.1⟩

/-- Claim C6 (counterexample): an iteration of the read loop whose decode
fails as BadMessage does not update the last-message-seen timestamp: from
a fresh loop state stamped 7, a BadMessage outcome at time 99 leaves the
timestamp at 7. -/
theorem c6_timestamp_counterexample :
    (netLoopStep 99 true (initialNetLoopState true 7) .badMessage).lastMessageTime = 7
    ∧ (7 : Nat) ≠ 99 :=
  ⟨rfl, by decide⟩

/-- Claim C6 (amended): every iteration of the read loop whose decode
returns — any message regardless of kind, and also the end-of-stream
sentinel — updates the last-message-seen timestamp to the current time,
while an iteration that fails as BadMessage jumps to the except handler
and leaves the timestamp unchanged. -/
theorem c6_timestamp_amended (now : Nat) (rok : Bool) (s : NetLoopState)
    (m : Message) :
    (netLoopStep now rok s (.msg m)).lastMessageTime = now
    ∧ (netLoopStep now rok s .eofNone).lastMessageTime = now
    ∧ (netLoopStep now rok s .badMessage).lastMessageTime = s.lastMessageTime := by
  refine ⟨rfl, rfl, ?_⟩
  by_cases h : s.badMessages + 1 ≥ MAX_CONSECUTIVE_BAD_MESSAGES <;>
    simp [netLoopStep, h]

/-- Claim C7: a header carrying a positive data_length followed by a valid
extra-data JSON object decodes with the extra-data object merged
right-biased into the inline data object: the merge result looks up to the
extra-data value on every key of the extra-data block (its keys being
distinct, as Python dict iteration yields them) and to the inline value on
every other key. -/
theorem c7_extension_merge (fs : List (String × JVal)) (t : JVal)
    (a b : List (String × JVal)) (raw : List Nat) (rest : List BlockRead)
    (h1 : getKey fs "type" = some t)
    (h2 : getKey fs "data" = some (JVal.obj a))
    (h3 : pyPositiveLength (getKey fs "data_length") = .ok true)
    (h4 : pyPositiveLength (getKey fs "payload_length") = .ok false) :
    recv_message [LineRead.text (some (JVal.obj fs))]
        (BlockRead.got (some (JVal.obj b)) raw :: rest) =
      .ok (some { message_type := messageTypeOf t, data := .obj (dictMerge a b),
                  payload := [] })
    ∧ (∀ k v, (b.map Prod.fst).Nodup → getKey b k = some v →
        getKey (dictMerge a b) k = some v)
    ∧ (∀ k, getKey b k = none → getKey (dictMerge a b) k = getKey a k) :=
  ⟨decode_extra_header fs t a b raw rest h1 h2 h3 h4,
   fun k v hnd h => dictMerge_present a b k v hnd h,
   fun k h => dictMerge_absent a b k h⟩

theorem c7_extension_merge_witness :
    getKey [("type", JVal.str "x"), ("data", JVal.obj [("a", JVal.num 1)]),
            ("data_length", JVal.num 7)] "data" = some (JVal.obj [("a", JVal.num 1)])
    ∧ recv_message
        [LineRead.text (some (JVal.obj
          [("type", JVal.str "x"), ("data", JVal.obj [("a", JVal.num 1)]),
           ("data_length", JVal.num 7)]))]
        [BlockRead.got (some (JVal.obj [("b", JVal.num 2)])) []] =
      .ok (some { message_type := .UNKNOWN,
                  data := .obj [("a", JVal.num 1), ("b", JVal.num 2)],
                  payload := [] }) :=
  ⟨rfl,
   (c7_extension_merge
      [("type", JVal.str "x"), ("data", JVal.obj [("a", JVal.num 1)]),
       ("data_length", JVal.num 7)]
      (JVal.str "x") [("a", JVal.num 1)] [("b", JVal.num 2)] [] []
      rfl rfl rfl rfl).1⟩

/-- Claim C8 (counterexample): a header whose type is the unknown string
"zzz" but which carries a positive data_length does not always decode
successfully: with an undecodable extra-data block the decode fails with
BadMessage; and with a decodable extra-data block the absent inline data,
defaulted to the empty mapping, ends up as the merged extra data rather
than the empty mapping. -/
theorem c8_unknown_type_counterexample :
    recv_message [LineRead.text (some (JVal.obj
        [("type", JVal.str "zzz"), ("data_length", JVal.num 5)]))]
      [BlockRead.got none [1, 2, 3, 4, 5]] = .error .badMessage
    ∧ recv_message [LineRead.text (some (JVal.obj
        [("type", JVal.str "zzz"), ("data_length", JVal.num 5)]))]
      [BlockRead.got (some (JVal.obj [("b", JVal.num 2)])) []] =
        .ok (some { message_type := .UNKNOWN, data := .obj [("b", JVal.num 2)],
                    payload := [] }) :=
  ⟨rfl, rfl⟩

/-- Claim C8 (amended): decode fails with BadMessage for every valid JSON
header object lacking a type field; for every string not among the known
wire values the kind-mapping yields Unknown and raises no error, and a
header typed with it decodes successfully with kind Unknown whenever its
optional extensions are absent; and an absent data field is defaulted to
the empty mapping (before any extra-data merge), so a header with no
extensions decodes with empty data. -/
theorem c8_header_classification_amended (fs : List (String × JVal)) (s : String)
    (t : JVal) (blocks : List BlockRead) :
    (getKey fs "type" = none →
      recv_message [LineRead.text (some (JVal.obj fs))] blocks = .error .badMessage)
    ∧ (s ≠ "audio-chunk" → s ≠ "client-info" → s ≠ "ping" →
        messageTypeInit (JVal.str s) = .ok .UNKNOWN)
    ∧ (getKey fs "type" = some t →
        pyPositiveLength (getKey fs "data_length") = .ok false →
        pyPositiveLength (getKey fs "payload_length") = .ok false →
        recv_message [LineRead.text (some (JVal.obj fs))] blocks =
          .ok (some { message_type := messageTypeOf t, data := headerDataDefault fs,
                      payload := [] }))
    ∧ (getKey fs "data" = none → headerDataDefault fs = .obj []) := by
  refine ⟨?_, ?_, ?_, ?_⟩
  · intro h
    simp [recv_message, decodeHeader, h]
  · intro h1 h2 h3
    rw [messageTypeInit_eq_ok]
    simp [messageTypeOf, h1, h2, h3]
  · intro h1 h2 h3
    exact decode_simple_header fs t blocks h1 h2 h3
  · intro h
    simp [headerDataDefault, h]

theorem c8_header_classification_amended_witness :
    getKey [("data", JVal.num 1)] "type" = none
    ∧ recv_message [LineRead.text (some (JVal.obj [("data", JVal.num 1)]))] [] =
        .error .badMessage
    ∧ messageTypeInit (JVal.str "zzz") = .ok .UNKNOWN :=
  ⟨rfl,
   (c8_header_classification_amended [("data", JVal.num 1)] "zzz" JVal.null []).1 rfl,
   (c8_header_classification_amended [("data", JVal.num 1)] "zzz" JVal.null []).2.1
     (by decide) (by decide) (by decide)⟩

/-- Claim C9: a decode call on a closed stream (a zero-length read, also
after skipped blank lines) returns the end-of-stream sentinel, not an
error, and in particular does not raise BadMessage. -/
theorem c9_end_of_stream (lines : List LineRead) (blocks : List BlockRead) :
    recv_message (LineRead.eof :: lines) blocks = .ok none
    ∧ recv_message (LineRead.blank :: LineRead.eof :: lines) blocks = .ok none :=
  ⟨rfl, rfl⟩

/-- Claim C10 (counterexample): no JSON value that is unhashable as a
Python object makes the Message constructor raise: the enum lookup of any
unhashable type value comes back ValueError (not TypeError), which the
constructor suppresses into kind Unknown, and a concrete header whose type
field is an array decodes successfully to an Unknown message. -/
theorem c10_unhashable_counterexample :
    (¬ ∃ v : JVal, v.isHashable = false ∧ messageTypeInit v ≠ .ok MessageType.UNKNOWN)
    ∧ recv_message
        [LineRead.text (some (JVal.obj [("type", JVal.arr [JVal.num 1])]))] [] =
        .ok (some { message_type := .UNKNOWN, data := .obj [], payload := [] }) := by
  refine ⟨?_, rfl⟩
  rintro ⟨v, hv, hne⟩
  cases v <;> first | exact hne rfl | simp [JVal.isHashable] at hv

/-- Claim C10 (amended): for every well-formed JSON header whose type field
is an unhashable JSON value (an array or an object), decode does not raise
an exception escaping the BadMessage classification: CPython Enum converts
the unhashable-key TypeError of its map lookup into a failed linear search
and a ValueError, which Message construction suppresses, so the header
decodes (with no extensions pending) to a message of kind Unknown. -/
theorem c10_unhashable_amended (v : JVal) (fs : List (String × JVal))
    (blocks : List BlockRead)
    (hv : v.isHashable = false)
    (h1 : getKey fs "type" = some v)
    (h2 : pyPositiveLength (getKey fs "data_length") = .ok false)
    (h3 : pyPositiveLength (getKey fs "payload_length") = .ok false) :
    messageTypeInit v = .ok .UNKNOWN
    ∧ recv_message [LineRead.text (some (JVal.obj fs))] blocks =
        .ok (some { message_type := .UNKNOWN, data := headerDataDefault fs,
                    payload := [] }) := by
  have hmt : messageTypeOf v = .UNKNOWN := by
    cases v <;> first | rfl | simp [JVal.isHashable] at hv
  constructor
  · rw [messageTypeInit_eq_ok, hmt]
  · have hdec := decode_simple_header fs v blocks h1 h2 h3
    rwa [hmt] at hdec

theorem c10_unhashable_amended_witness :
    JVal.isHashable (JVal.arr []) = false
    ∧ recv_message [LineRead.text (some (JVal.obj [("type", JVal.arr [])]))] [] =
        .ok (some { message_type := .UNKNOWN, data := .obj [], payload := [] }) :=
  ⟨rfl, (c10_unhashable_amended (JVal.arr []) [("type", JVal.arr [])] []
          rfl rfl rfl rfl).2⟩
